import Mathlib

/-!
# boulder-sa: start-up and shutdown sequencing of `main`

A shallow embedding of `src/cmd/boulder-sa/main.go`.

`main` is a straight-line program over collaborators that live in other
packages (`cmd`, `features`, `sa`, `bgrpc`, `prometheus`).  It is embedded as a
program in a small logging monad `Proc`: every call `main` makes is recorded as
an `Effect` in program order, and the answers of the collaborators are read
from a `World`.  `os.Exit` ends the run with an exit code; a normal return of
`main` ends the process with code 0.

Conventions
* Go `int` is the 64-bit `int` of the platforms boulder runs on; it is embedded
  as `Int`, and no arithmetic in `main` can overflow (there is a comparison with
  1 and a comparison with 0 only).
* Go `(value, error)` results are embedded as pairs `α × Option Err`, `nil`
  being `none`.
* Collaborator calls without an `error` result are embedded as total effects; a
  panic inside a collaborator is outside the embedding.
* `flag.Parse` is the source of the `Flags` value `main` is run on.
* `go f(x)` is embedded as the effect of starting the goroutine; what the
  goroutine does afterwards is not part of the embedding.
-/

namespace BoulderSA

/-! ## Data model -/

/-- Modelled from the spec: `error` values.  The spec tells apart the error
"produced specifically by the graceful-stop action itself" (the sentinel) from
every other error; nothing else about an error is observed by `main`. -/
inductive Err where
  | shutdownSentinel
  | other (msg : String)
  deriving DecidableEq, Repr

/-- Modelled from the spec: `cmd.GRPCServerConfig` is declared outside `src/`.
`main` reads and writes its `Address` ("network bind address"); the remaining
settings are kept as one field. -/
structure GRPCServerConfig where
  Address : String
  settings : String
  deriving DecidableEq, Repr

/-- Modelled from the spec: `cmd.TLSConfig` is declared outside `src/`
("TLS material references"); `main` only calls its `Load` method. -/
structure TLSConfig where
  material : String
  deriving DecidableEq, Repr

/-- Modelled from the spec: `cmd.ServiceConfig` is declared outside `src/`; the
fields are the ones `main` selects (`DebugAddr`, `GRPC`, `TLS`). -/
structure ServiceConfig where
  DebugAddr : String
  GRPC : GRPCServerConfig
  TLS : TLSConfig
  deriving DecidableEq, Repr

/-- Modelled from the spec: `cmd.DBConfig` is declared outside `src/`.  `main`
selects `MaxDBConns` and `MaxIdleDBConns` and calls `URL`; the connection
parameters `URL` works from are kept as one field. -/
structure DBConfig where
  connect : String
  MaxDBConns : Int
  MaxIdleDBConns : Int
  deriving DecidableEq, Repr

/-- Modelled from the spec: `cmd.SyslogConfig` is declared outside `src/`
("syslog target"); `main` passes it on unread. -/
structure SyslogConfig where
  target : String
  deriving DecidableEq, Repr

/-- The anonymous struct of the `SA` field of `config` (main.go 16-24): the
embedded `cmd.ServiceConfig` and `cmd.DBConfig`, `Features` and
`ParallelismPerRPC`. -/
structure SAConfig extends ServiceConfig, DBConfig where
  Features : List (String × Bool)
  ParallelismPerRPC : Int
  deriving DecidableEq, Repr

/-- The `config` struct (main.go 15-27). -/
structure config where
  SA : SAConfig
  Syslog : SyslogConfig
  deriving DecidableEq, Repr

/-- The three command line flags after `flag.Parse` (main.go 30-33). -/
structure Flags where
  grpcAddr : String
  debugAddr : String
  configFile : String
  deriving DecidableEq, Repr

/-- What `cmd.CatchSignals` is given to run on a termination signal: one of the
two stop methods of a gRPC server. -/
inductive StopAction where
  | gracefulStop
  | stop
  deriving DecidableEq, Repr

/-- The calls `main` makes, in the vocabulary of the source. -/
inductive Effect where
  /-- Call `flag.Usage()` -/
  | usage
  /-- Call `os.Exit(code)` -/
  | exit (code : Nat)
  /-- Call `cmd.ReadConfigFile(path, &c)` -/
  | readConfigFile (path : String)
  /-- Call `features.Set(m)` -/
  | featuresSet (m : List (String × Bool))
  /-- Call `cmd.StatsAndLogging(syslog, debugAddr)`, which starts the debug server -/
  | statsAndLogging (syslog : SyslogConfig) (debugAddr : String)
  /-- Call `logger.Info(cmd.VersionString())` -/
  | logVersion
  /-- Call `saConf.DBConfig.URL()` -/
  | dbURL (db : DBConfig)
  /-- Call `sa.NewDbMap(url, maxConns)` -/
  | newDbMap (url : String) (maxConns : Int)
  /-- Call `prometheus.NewGauge` with the given name -/
  | newGauge (name : String)
  /-- Call `scope.MustRegister(gauge)` on the gauge of the given name -/
  | mustRegister (name : String)
  /-- Call `gauge.Set(v)`; `v` is the (integral) value of the float64 argument -/
  | gaugeSet (name : String) (v : Int)
  /-- Call `dbMap.Db.SetMaxIdleConns(n)` -/
  | setMaxIdleConns (n : Int)
  /-- Statement `go sa.ReportDbConnCount(dbMap, scope)` -/
  | goReportDbConnCount
  /-- Call `sa.NewSQLStorageAuthority(dbMap, cmd.Clock(), logger, scope, parallel)` -/
  | newSQLStorageAuthority (parallel : Int)
  /-- Call `c.SA.TLS.Load()` -/
  | tlsLoad (tls : TLSConfig)
  /-- Call `bgrpc.NewServerMetrics(scope)` -/
  | newServerMetrics
  /-- Call `bgrpc.NewServer(grpcConfig, tls, serverMetrics)`: server and listener -/
  | newServer (grpc : GRPCServerConfig)
  /-- Call `bgrpc.NewStorageAuthorityServer(sai)` -/
  | newStorageAuthorityServer
  /-- Call `sapb.RegisterStorageAuthorityServer(grpcSrv, gw)` -/
  | registerStorageAuthorityServer
  /-- Statement `go cmd.CatchSignals(logger, callback)` -/
  | goCatchSignals (callback : StopAction)
  /-- Call `grpcSrv.Serve(listener)` -/
  | serve
  /-- The log line `cmd.FailOnError` writes before exiting -/
  | auditErr (msg : String) (err : Err)
  /-- The deferred `logger.AuditPanic()`, run when `main` returns -/
  | auditPanic
  deriving DecidableEq, Repr

/-- The answers of the collaborators `main` calls and checks. -/
structure World where
  /-- Answer of `cmd.ReadConfigFile`: the decoded configuration and the error -/
  readConfigFile : String → config × Option Err
  /-- Answer of `features.Set` -/
  featuresSet : List (String × Bool) → Option Err
  /-- Answer of `DBConfig.URL` -/
  dbURL : DBConfig → String × Option Err
  /-- Answer of `sa.NewDbMap` -/
  newDbMap : String → Int → Option Err
  /-- Answer of `sa.NewSQLStorageAuthority` -/
  newSQLStorageAuthority : Int → Option Err
  /-- Answer of `TLSConfig.Load` -/
  tlsLoad : TLSConfig → Option Err
  /-- Answer of `bgrpc.NewServer` -/
  newServer : GRPCServerConfig → Option Err
  /-- What `grpcSrv.Serve(listener)` returns when it returns -/
  serve : Option Err

/-! ## The process monad -/

/-- How a piece of the program ends: it returns a value, or the process has
exited with a code. -/
inductive Outcome (α : Type) where
  | returned (a : α)
  | exited (code : Nat)
  deriving DecidableEq, Repr

/-- A run of a piece of the program: the effects in program order and how it
ended. -/
structure Proc (α : Type) where
  trace : List Effect
  outcome : Outcome α

namespace Proc

/-- Sequencing: once the process has exited nothing more runs. -/
def andThen {α β : Type} (p : Proc α) (k : α → Proc β) : Proc β :=
  match p.outcome with
  | .returned a => ⟨p.trace ++ (k a).trace, (k a).outcome⟩
  | .exited code => ⟨p.trace, .exited code⟩

instance : Monad Proc where
  pure a := ⟨[], .returned a⟩
  bind := andThen

/-- The exit code of the process whose `main` ran as `p`: the code given to
`os.Exit`, or 0 when `main` returned. -/
def exitCode (p : Proc Unit) : Nat :=
  match p.outcome with
  | .returned _ => 0
  | .exited code => code

end Proc

/-- A call of a collaborator: the effect is recorded and the answer returned. -/
def call {α : Type} (e : Effect) (answer : α) : Proc α :=
  ⟨[e], .returned answer⟩

/-- A call made for its effect only. -/
def emit (e : Effect) : Proc Unit :=
  call e ()

/-- The call `os.Exit(code)`. -/
def osExit (code : Nat) : Proc Unit :=
  ⟨[.exit code], .exited code⟩

/-- Modelled from the spec: `cmd.FailOnError` is declared outside `src/`.  A
fatal error is "always logged with context and the process exits immediately"
with exit code 1; with no error the call does nothing. -/
def FailOnError (err : Option Err) (msg : String) : Proc Unit :=
  match err with
  | none => pure ()
  | some e => do
    emit (.auditErr msg e)
    osExit 1

/-- Modelled from the spec: `cmd.FilterShutdownErrors` is declared outside
`src/`.  "An error produced specifically by the graceful-stop action itself is
treated as expected and suppressed"; any other error is handed back. -/
def FilterShutdownErrors (err : Option Err) : Option Err :=
  match err with
  | none => none
  | some .shutdownSentinel => none
  | some e => some e

/-! ## Go conversion `float64(n)` of an `int` -/

/-- Number of low bits that do not fit a 53 bit significand: the least `k`
with `n / 2 ^ k < 2 ^ 53`, searched up to `fuel`. -/
def excessBits (n : Nat) : Nat → Nat
  | 0 => 0
  | fuel + 1 => if n < 2 ^ 53 then 0 else excessBits (n / 2) fuel + 1

/-- Rounding of a natural number to a 53 bit significand, to nearest, ties to
even (IEEE 754 binary64; no `int` is large enough to overflow). -/
def roundNat53 (n : Nat) : Nat :=
  let k := excessBits n 64
  let q := n / 2 ^ k
  let r := n % 2 ^ k
  if 2 * r < 2 ^ k then q * 2 ^ k
  else if 2 * r = 2 ^ k ∧ q % 2 = 0 then q * 2 ^ k
  else (q + 1) * 2 ^ k

/-- The Go conversion `float64(n)` of an `int` (main.go 71), as the integer the
resulting float64 denotes. -/
def float64 (n : Int) : Int :=
  if 0 ≤ n then (roundNat53 n.toNat : Int) else -(roundNat53 (-n).toNat : Int)

/-! ## `main` -/

/-- The flag overrides of main.go 46-51. -/
def overrideAddrs (fl : Flags) (c : config) : config :=
  let c :=
    if fl.grpcAddr ≠ "" then
      { c with SA := { c.SA with GRPC := { c.SA.GRPC with Address := fl.grpcAddr } } }
    else c
  let c :=
    if fl.debugAddr ≠ "" then
      { c with SA := { c.SA with DebugAddr := fl.debugAddr } }
    else c
  c

/-- The clamp of main.go 78-81. -/
def parallelCap (saConf : SAConfig) : Int :=
  let parallel := saConf.ParallelismPerRPC
  if parallel < 1 then 1 else parallel

/-- The pool set-up after `sa.NewDbMap` succeeded (main.go 65-76). -/
def poolSetup (saConf : SAConfig) : Proc Unit := do
  emit (.newGauge "max_db_connections")
  emit (.mustRegister "max_db_connections")
  emit (.gaugeSet "max_db_connections" (float64 saConf.toDBConfig.MaxDBConns))
  if saConf.toDBConfig.MaxIdleDBConns ≠ 0 then
    emit (.setMaxIdleConns saConf.toDBConfig.MaxIdleDBConns)
  emit .goReportDbConnCount

/-- The service start after the pool set-up (main.go 78-96): storage
authority, TLS, gRPC server, signal catcher and the serve loop. -/
def serveSA (w : World) (c : config) : Proc Unit := do
  let saConf := c.SA
  let parallel := parallelCap saConf
  let err ← call (.newSQLStorageAuthority parallel) (w.newSQLStorageAuthority parallel)
  FailOnError err "Failed to create SA impl"
  let err ← call (.tlsLoad c.SA.TLS) (w.tlsLoad c.SA.TLS)
  FailOnError err "TLS config"
  emit .newServerMetrics
  let err ← call (.newServer c.SA.GRPC) (w.newServer c.SA.GRPC)
  FailOnError err "Unable to setup SA gRPC server"
  emit .newStorageAuthorityServer
  emit .registerStorageAuthorityServer
  emit (.goCatchSignals .gracefulStop)
  let serveErr ← call .serve w.serve
  let err := FilterShutdownErrors serveErr
  FailOnError err "SA gRPC service failed"

/-- The function `main` (main.go 29-97), run on the parsed flags `fl`: flag
check, configuration, feature flags, overrides, logging, pool creation
(29-63), then `poolSetup` (65-76) and `serveSA` (78-96); the deferred
`logger.AuditPanic()` of line 54 runs when `main` returns, and is skipped by
`os.Exit`. -/
def main (w : World) (fl : Flags) : Proc Unit := do
  if fl.configFile = "" then
    emit .usage
    osExit 1
  let (c, err) ← call (.readConfigFile fl.configFile) (w.readConfigFile fl.configFile)
  FailOnError err "Reading JSON config file into config structure"
  let err ← call (.featuresSet c.SA.Features) (w.featuresSet c.SA.Features)
  FailOnError err "Failed to set feature flags"
  let c := overrideAddrs fl c
  emit (.statsAndLogging c.Syslog c.SA.DebugAddr)
  emit .logVersion
  let saConf := c.SA
  let (dbURL, err) ← call (.dbURL saConf.toDBConfig) (w.dbURL saConf.toDBConfig)
  FailOnError err "Couldn't load DB URL"
  let err ← call (.newDbMap dbURL saConf.toDBConfig.MaxDBConns)
    (w.newDbMap dbURL saConf.toDBConfig.MaxDBConns)
  FailOnError err "Couldn't connect to SA database"
  poolSetup saConf
  serveSA w c
  emit .auditPanic

/-! ## Observations on a run -/

/-- The cap an effect hands to `sa.NewSQLStorageAuthority`, if it is that call. -/
def Effect.parallelArg : Effect → Option Int
  | .newSQLStorageAuthority parallel => some parallel
  | _ => none

/-- The argument an effect hands to `SetMaxIdleConns`, if it is that call. -/
def Effect.idleArg : Effect → Option Int
  | .setMaxIdleConns n => some n
  | _ => none

/-- The gauge and value of a `Set` call, if the effect is one. -/
def Effect.gaugeSetArg : Effect → Option (String × Int)
  | .gaugeSet name v => some (name, v)
  | _ => none

/-- The gauge of a `MustRegister` call, if the effect is one. -/
def Effect.registeredGauge : Effect → Option String
  | .mustRegister name => some name
  | _ => none

/-- The effects that end the process: the log line and `os.Exit` of a fatal
error, and the deferred call of a normal return. -/
def Effect.isEnding : Effect → Bool
  | .auditErr _ _ => true
  | .exit _ => true
  | .auditPanic => true
  | _ => false

/-- The steps the start-up ordering is stated on: configuration read, feature
flags, pool creation, gauge publication, idle setter, health reporter, storage
authority, TLS load, gRPC server and listener, service registration, signal
catcher, serve. -/
def Effect.milestone : Effect → Bool
  | .readConfigFile _ => true
  | .featuresSet _ => true
  | .newDbMap _ _ => true
  | .gaugeSet _ _ => true
  | .setMaxIdleConns _ => true
  | .goReportDbConnCount => true
  | .newSQLStorageAuthority _ => true
  | .tlsLoad _ => true
  | .newServer _ => true
  | .registerStorageAuthorityServer => true
  | .goCatchSignals _ => true
  | .serve => true
  | _ => false

/-- The position of each kind of call in the text of `main`; the effects of
`cmd.FailOnError` and of the return of `main` come last. -/
def Effect.order : Effect → Nat
  | .usage => 0
  | .readConfigFile _ => 1
  | .featuresSet _ => 2
  | .statsAndLogging _ _ => 3
  | .logVersion => 4
  | .dbURL _ => 5
  | .newDbMap _ _ => 6
  | .newGauge _ => 7
  | .mustRegister _ => 8
  | .gaugeSet _ _ => 9
  | .setMaxIdleConns _ => 10
  | .goReportDbConnCount => 11
  | .newSQLStorageAuthority _ => 12
  | .tlsLoad _ => 13
  | .newServerMetrics => 14
  | .newServer _ => 15
  | .newStorageAuthorityServer => 16
  | .registerStorageAuthorityServer => 17
  | .goCatchSignals _ => 18
  | .serve => 19
  | .auditErr _ _ => 20
  | .auditPanic => 20
  | .exit _ => 21

/-- Start-up of `main w fl` gets past pool creation: the `--config` flag is
given, the file decodes to `c`, the feature flags are accepted, the URL `url`
is derived and `sa.NewDbMap` returns no error. -/
def ReachesPoolSetup (w : World) (fl : Flags) (c : config) (url : String) : Prop :=
  fl.configFile ≠ "" ∧
  w.readConfigFile fl.configFile = (c, none) ∧
  w.featuresSet c.SA.Features = none ∧
  w.dbURL c.SA.toDBConfig = (url, none) ∧
  w.newDbMap url c.SA.MaxDBConns = none

/-- Every checked step of the start-up of `main w fl` succeeds. -/
def StartupSucceeds (w : World) (fl : Flags) (c : config) (url : String) : Prop :=
  ReachesPoolSetup w fl c url ∧
  w.newSQLStorageAuthority (parallelCap c.SA) = none ∧
  w.tlsLoad c.SA.TLS = none ∧
  w.newServer (overrideAddrs fl c).SA.GRPC = none

/-- The start-up steps whose error `main` checks with `cmd.FailOnError`. -/
inductive StartupStep where
  | readConfig
  | setFeatures
  | dbURL
  | newDbMap
  | newSA
  | tlsLoad
  | newServer
  deriving DecidableEq, Repr

/-- Program order of the checked steps. -/
def StartupStep.rank : StartupStep → Nat
  | .readConfig => 0
  | .setFeatures => 1
  | .dbURL => 2
  | .newDbMap => 3
  | .newSA => 4
  | .tlsLoad => 5
  | .newServer => 6

/-- The message `main` gives `cmd.FailOnError` at each checked step. -/
def StartupStep.failMsg : StartupStep → String
  | .readConfig => "Reading JSON config file into config structure"
  | .setFeatures => "Failed to set feature flags"
  | .dbURL => "Couldn't load DB URL"
  | .newDbMap => "Couldn't connect to SA database"
  | .newSA => "Failed to create SA impl"
  | .tlsLoad => "TLS config"
  | .newServer => "Unable to setup SA gRPC server"

/-- The configuration `main` works with after the override step. -/
def loadedConfig (w : World) (fl : Flags) : config :=
  overrideAddrs fl (w.readConfigFile fl.configFile).1

/-- The call `main` makes at a checked step. -/
def stepCall (w : World) (fl : Flags) : StartupStep → Effect
  | .readConfig => .readConfigFile fl.configFile
  | .setFeatures => .featuresSet (w.readConfigFile fl.configFile).1.SA.Features
  | .dbURL => .dbURL (loadedConfig w fl).SA.toDBConfig
  | .newDbMap =>
    .newDbMap (w.dbURL (loadedConfig w fl).SA.toDBConfig).1 (loadedConfig w fl).SA.MaxDBConns
  | .newSA => .newSQLStorageAuthority (parallelCap (loadedConfig w fl).SA)
  | .tlsLoad => .tlsLoad (loadedConfig w fl).SA.TLS
  | .newServer => .newServer (loadedConfig w fl).SA.GRPC

/-- The error the world answers to the call `main` makes at a checked step. -/
def stepError (w : World) (fl : Flags) : StartupStep → Option Err
  | .readConfig => (w.readConfigFile fl.configFile).2
  | .setFeatures => w.featuresSet (w.readConfigFile fl.configFile).1.SA.Features
  | .dbURL => (w.dbURL (loadedConfig w fl).SA.toDBConfig).2
  | .newDbMap =>
    w.newDbMap (w.dbURL (loadedConfig w fl).SA.toDBConfig).1 (loadedConfig w fl).SA.MaxDBConns
  | .newSA => w.newSQLStorageAuthority (parallelCap (loadedConfig w fl).SA)
  | .tlsLoad => w.tlsLoad (loadedConfig w fl).SA.TLS
  | .newServer => w.newServer (loadedConfig w fl).SA.GRPC

/-! ## Concrete inputs -/

/-- A configuration with the given parallelism, connection and idle limits. -/
def exampleConfig (parallel maxConns maxIdle : Int) : config :=
  { SA :=
      { DebugAddr := ":8003"
        GRPC := { Address := ":9095", settings := "ra.boulder" }
        TLS := { material := "test/grpc-creds/sa.boulder" }
        connect := "mysql+tcp://sa@localhost:3306/boulder_sa"
        MaxDBConns := maxConns
        MaxIdleDBConns := maxIdle
        Features := [("AllowAccountDeactivation", true)]
        ParallelismPerRPC := parallel }
    Syslog := { target := "stdout" } }

/-- A world in which every collaborator succeeds, the configuration file holds
`c`, and the serve loop returns `serveErr`. -/
def exampleWorld (c : config) (serveErr : Option Err) : World :=
  { readConfigFile := fun _ => (c, none)
    featuresSet := fun _ => none
    dbURL := fun db => (db.connect, none)
    newDbMap := fun _ _ => none
    newSQLStorageAuthority := fun _ => none
    tlsLoad := fun _ => none
    newServer := fun _ => none
    serve := serveErr }

/-- The world of `exampleWorld` with a database that refuses the connection. -/
def dbDownWorld (c : config) : World :=
  { exampleWorld c none with newDbMap := fun _ _ => some (.other "connection refused") }

/-- Flags naming a configuration file only. -/
def exampleFlags : Flags :=
  { grpcAddr := "", debugAddr := "", configFile := "test/config/sa.json" }

/-- Flags naming a configuration file and overriding the gRPC address. -/
def grpcOverrideFlags : Flags :=
  { grpcAddr := "0.0.0.0:9195", debugAddr := "", configFile := "test/config/sa.json" }

/-- Flags without `--config`. -/
def noConfigFlags : Flags :=
  { grpcAddr := "0.0.0.0:9195", debugAddr := ":8103", configFile := "" }

/-- The URL `exampleWorld` derives for `exampleConfig`. -/
def exampleURL : String := "mysql+tcp://sa@localhost:3306/boulder_sa"

/-! ## Lemmas on the process monad and on the phases of `main` -/

namespace Proc

@[simp] theorem trace_pure {α : Type} (a : α) : (pure a : Proc α).trace = [] := rfl

@[simp] theorem outcome_pure {α : Type} (a : α) : (pure a : Proc α).outcome = .returned a := rfl

@[simp] theorem trace_bind {α β : Type} (p : Proc α) (k : α → Proc β) :
    (p >>= k).trace =
      p.trace ++ (match p.outcome with
        | .returned a => (k a).trace
        | .exited _ => []) := by
  obtain ⟨t, o⟩ := p
  cases o <;> simp [bind, andThen]

@[simp] theorem outcome_bind {α β : Type} (p : Proc α) (k : α → Proc β) :
    (p >>= k).outcome =
      (match p.outcome with
        | .returned a => (k a).outcome
        | .exited code => .exited code) := by
  obtain ⟨t, o⟩ := p
  cases o <;> simp [bind, andThen]

end Proc

@[simp] theorem trace_call {α : Type} (e : Effect) (a : α) : (call e a).trace = [e] := rfl

@[simp] theorem outcome_call {α : Type} (e : Effect) (a : α) :
    (call e a).outcome = .returned a := rfl

@[simp] theorem trace_emit (e : Effect) : (emit e).trace = [e] := rfl

@[simp] theorem outcome_emit (e : Effect) : (emit e).outcome = .returned () := rfl

@[simp] theorem trace_osExit (code : Nat) : (osExit code).trace = [.exit code] := rfl

@[simp] theorem outcome_osExit (code : Nat) : (osExit code).outcome = .exited code := rfl

@[simp] theorem trace_failOnError_none (msg : String) : (FailOnError none msg).trace = [] := rfl

@[simp] theorem outcome_failOnError_none (msg : String) :
    (FailOnError none msg).outcome = .returned () := rfl

@[simp] theorem trace_failOnError_some (e : Err) (msg : String) :
    (FailOnError (some e) msg).trace = [.auditErr msg e, .exit 1] := rfl

@[simp] theorem outcome_failOnError_some (e : Err) (msg : String) :
    (FailOnError (some e) msg).outcome = .exited 1 := rfl

@[simp] theorem overrideAddrs_toDBConfig (fl : Flags) (c : config) :
    (overrideAddrs fl c).SA.toDBConfig = c.SA.toDBConfig := by
  unfold overrideAddrs
  by_cases hg : fl.grpcAddr = "" <;> by_cases hd : fl.debugAddr = "" <;> simp [hg, hd]

@[simp] theorem overrideAddrs_parallelCap (fl : Flags) (c : config) :
    parallelCap (overrideAddrs fl c).SA = parallelCap c.SA := by
  unfold overrideAddrs parallelCap
  by_cases hg : fl.grpcAddr = "" <;> by_cases hd : fl.debugAddr = "" <;> simp [hg, hd]

theorem poolSetup_outcome (s : SAConfig) : (poolSetup s).outcome = .returned () := by
  unfold poolSetup
  by_cases h : s.MaxIdleDBConns = 0 <;> simp [h]

theorem poolSetup_trace (s : SAConfig) :
    (poolSetup s).trace =
      [.newGauge "max_db_connections", .mustRegister "max_db_connections",
        .gaugeSet "max_db_connections" (float64 s.MaxDBConns)] ++
      (if s.MaxIdleDBConns ≠ 0 then [.setMaxIdleConns s.MaxIdleDBConns] else []) ++
      [.goReportDbConnCount] := by
  unfold poolSetup
  by_cases h : s.MaxIdleDBConns = 0 <;> simp [h]

theorem serveSA_parallelArgs (w : World) (c : config) :
    (serveSA w c).trace.filterMap Effect.parallelArg = [parallelCap c.SA] := by
  unfold serveSA
  cases h1 : w.newSQLStorageAuthority (parallelCap c.SA) <;>
  cases h2 : w.tlsLoad c.SA.TLS <;>
  cases h3 : w.newServer c.SA.GRPC <;>
  cases h4 : FilterShutdownErrors w.serve <;>
  simp [h1, h2, h3, h4, Effect.parallelArg]


@[simp] theorem overrideAddrs_TLS (fl : Flags) (c : config) :
    (overrideAddrs fl c).SA.TLS = c.SA.TLS := by
  unfold overrideAddrs
  by_cases hg : fl.grpcAddr = "" <;> by_cases hd : fl.debugAddr = "" <;> simp [hg, hd]

@[simp] theorem overrideAddrs_Syslog (fl : Flags) (c : config) :
    (overrideAddrs fl c).Syslog = c.Syslog := by
  unfold overrideAddrs
  by_cases hg : fl.grpcAddr = "" <;> by_cases hd : fl.debugAddr = "" <;> simp [hg, hd]

theorem poolSetup_override (fl : Flags) (c : config) :
    poolSetup (overrideAddrs fl c).SA = poolSetup c.SA := by
  unfold poolSetup
  simp

/-- The trace of `main` once the pool is created: the calls up to `sa.NewDbMap`,
the pool set-up, the service start, and the deferred call when `main` returns. -/
theorem main_trace_poolCreated (w : World) (fl : Flags) (c : config) (url : String)
    (h : ReachesPoolSetup w fl c url) :
    (main w fl).trace =
      [.readConfigFile fl.configFile, .featuresSet c.SA.Features,
        .statsAndLogging c.Syslog (overrideAddrs fl c).SA.DebugAddr, .logVersion,
        .dbURL c.SA.toDBConfig, .newDbMap url c.SA.MaxDBConns] ++
      (poolSetup c.SA).trace ++ (serveSA w (overrideAddrs fl c)).trace ++
      (match (serveSA w (overrideAddrs fl c)).outcome with
        | .returned _ => [.auditPanic]
        | .exited _ => []) := by
  obtain ⟨hcfg, hread, hfeat, hurl, hdb⟩ := h
  simp [main, hcfg, hread, hfeat, hurl, hdb, poolSetup_outcome, poolSetup_override]
  cases (serveSA w (overrideAddrs fl c)).outcome <;> rfl

theorem main_outcome_poolCreated (w : World) (fl : Flags) (c : config) (url : String)
    (h : ReachesPoolSetup w fl c url) :
    (main w fl).outcome = (serveSA w (overrideAddrs fl c)).outcome := by
  obtain ⟨hcfg, hread, hfeat, hurl, hdb⟩ := h
  simp [main, hcfg, hread, hfeat, hurl, hdb, poolSetup_outcome, poolSetup_override]
  cases (serveSA w (overrideAddrs fl c)).outcome <;> rfl

theorem serveSA_idleArgs (w : World) (c : config) :
    (serveSA w c).trace.filterMap Effect.idleArg = [] := by
  unfold serveSA
  cases h1 : w.newSQLStorageAuthority (parallelCap c.SA) <;>
  cases h2 : w.tlsLoad c.SA.TLS <;>
  cases h3 : w.newServer c.SA.GRPC <;>
  cases h4 : FilterShutdownErrors w.serve <;>
  simp [h1, h2, h3, h4, Effect.idleArg]

theorem serveSA_gaugeSetArgs (w : World) (c : config) :
    (serveSA w c).trace.filterMap Effect.gaugeSetArg = [] := by
  unfold serveSA
  cases h1 : w.newSQLStorageAuthority (parallelCap c.SA) <;>
  cases h2 : w.tlsLoad c.SA.TLS <;>
  cases h3 : w.newServer c.SA.GRPC <;>
  cases h4 : FilterShutdownErrors w.serve <;>
  simp [h1, h2, h3, h4, Effect.gaugeSetArg]

theorem parallelCap_of_nonpos (s : SAConfig) (hp : s.ParallelismPerRPC ≤ 0) :
    parallelCap s = 1 := by
  unfold parallelCap
  simp only []
  rw [if_pos (by omega)]

theorem parallelCap_of_pos (s : SAConfig) (hp : 1 ≤ s.ParallelismPerRPC) :
    parallelCap s = s.ParallelismPerRPC := by
  unfold parallelCap
  simp only []
  rw [if_neg (by omega)]

theorem main_parallelArgs (w : World) (fl : Flags) (c : config) (url : String)
    (h : ReachesPoolSetup w fl c url) :
    (main w fl).trace.filterMap Effect.parallelArg = [parallelCap c.SA] := by
  rw [main_trace_poolCreated w fl c url h, poolSetup_trace]
  simp only [List.filterMap_append, serveSA_parallelArgs, overrideAddrs_parallelCap]
  split <;> split <;> simp [Effect.parallelArg]

theorem main_idleArgs (w : World) (fl : Flags) (c : config) (url : String)
    (h : ReachesPoolSetup w fl c url) :
    (main w fl).trace.filterMap Effect.idleArg =
      if c.SA.MaxIdleDBConns ≠ 0 then [c.SA.MaxIdleDBConns] else [] := by
  rw [main_trace_poolCreated w fl c url h, poolSetup_trace]
  simp only [List.filterMap_append, serveSA_idleArgs]
  split <;> split <;> simp [Effect.idleArg]

theorem main_gaugeSetArgs (w : World) (fl : Flags) (c : config) (url : String)
    (h : ReachesPoolSetup w fl c url) :
    (main w fl).trace.filterMap Effect.gaugeSetArg =
      [("max_db_connections", float64 c.SA.MaxDBConns)] := by
  rw [main_trace_poolCreated w fl c url h, poolSetup_trace]
  simp only [List.filterMap_append, serveSA_gaugeSetArgs]
  split <;> split <;> simp [Effect.gaugeSetArg]


theorem excessBits_small (m : Nat) (h : m < 2 ^ 53) : excessBits m 64 = 0 := by
  have hm : m < 9007199254740992 := by simpa using h
  simp [excessBits, hm]

theorem roundNat53_exact (m : Nat) (h : m ≤ 2 ^ 53) : roundNat53 m = m := by
  rcases Nat.lt_or_eq_of_le h with hlt | heq
  · simp [roundNat53, excessBits_small m hlt, Nat.mod_one]
  · subst heq
    decide

theorem float64_exact (n : Int) (h : |n| ≤ 2 ^ 53) : float64 n = n := by
  have h1 := abs_le.mp h
  unfold float64
  split
  · rw [roundNat53_exact _ (by omega)]
    omega
  · rw [roundNat53_exact _ (by omega)]
    omega

theorem fail_at_step (w : World) (fl : Flags) (hcfg : fl.configFile ≠ "")
    (s : StartupStep) (e : Err) (hfail : stepError w fl s = some e)
    (hfirst : ∀ t, t.rank < s.rank → stepError w fl t = none) :
    (main w fl).exitCode = 1 ∧ Effect.serve ∉ (main w fl).trace ∧
    ∃ pre, (main w fl).trace = pre ++ [stepCall w fl s, .auditErr s.failMsg e, .exit 1] ∧
      ∀ x ∈ pre, x.order < (stepCall w fl s).order := by
  rcases hr : w.readConfigFile fl.configFile with ⟨c, err⟩
  rcases hu : w.dbURL c.SA.toDBConfig with ⟨url, uerr⟩
  cases s with
  | readConfig =>
    simp only [stepError, hr] at hfail
    subst hfail
    refine ⟨?_, ?_, [], ?_, ?_⟩ <;>
      simp [main, hcfg, hr, Proc.exitCode, stepCall, StartupStep.failMsg]
  | setFeatures =>
    have h0 := hfirst .readConfig (by decide)
    simp only [stepError, hr] at hfail h0
    subst h0
    refine ⟨?_, ?_, [.readConfigFile fl.configFile], ?_, ?_⟩ <;>
      simp [main, hcfg, hr, hfail, Proc.exitCode, stepCall, StartupStep.failMsg, Effect.order]
  | dbURL =>
    have h0 := hfirst .readConfig (by decide)
    have h1 := hfirst .setFeatures (by decide)
    simp only [stepError, loadedConfig, overrideAddrs_toDBConfig, hr, hu] at hfail h0 h1
    subst h0 hfail
    refine ⟨?_, ?_, [.readConfigFile fl.configFile, .featuresSet c.SA.Features,
        .statsAndLogging c.Syslog (overrideAddrs fl c).SA.DebugAddr, .logVersion], ?_, ?_⟩ <;>
      simp [main, hcfg, hr, hu, h1, Proc.exitCode, stepCall, loadedConfig,
        StartupStep.failMsg, Effect.order]
  | newDbMap =>
    have h0 := hfirst .readConfig (by decide)
    have h1 := hfirst .setFeatures (by decide)
    have h2 := hfirst .dbURL (by decide)
    simp only [stepError, loadedConfig, overrideAddrs_toDBConfig, hr, hu] at hfail h0 h1 h2
    subst h0 h2
    refine ⟨?_, ?_, [.readConfigFile fl.configFile, .featuresSet c.SA.Features,
        .statsAndLogging c.Syslog (overrideAddrs fl c).SA.DebugAddr, .logVersion,
        .dbURL c.SA.toDBConfig], ?_, ?_⟩ <;>
      simp [main, hcfg, hr, hu, h1, hfail, Proc.exitCode, stepCall, loadedConfig,
        StartupStep.failMsg, Effect.order]
  | newSA =>
    have h0 := hfirst .readConfig (by decide)
    have h1 := hfirst .setFeatures (by decide)
    have h2 := hfirst .dbURL (by decide)
    have h3 := hfirst .newDbMap (by decide)
    simp only [stepError, loadedConfig, overrideAddrs_toDBConfig, overrideAddrs_parallelCap,
      hr, hu] at hfail h0 h1 h2 h3
    subst h0 h2
    have hp : ReachesPoolSetup w fl c url := ⟨hcfg, hr, h1, hu, h3⟩
    refine ⟨?_, ?_, [.readConfigFile fl.configFile, .featuresSet c.SA.Features,
        .statsAndLogging c.Syslog (overrideAddrs fl c).SA.DebugAddr, .logVersion,
        .dbURL c.SA.toDBConfig, .newDbMap url c.SA.MaxDBConns] ++ (poolSetup c.SA).trace,
        ?_, ?_⟩
    · simp [Proc.exitCode, main_outcome_poolCreated w fl c url hp, serveSA, hfail]
    · rw [main_trace_poolCreated w fl c url hp, poolSetup_trace]
      by_cases hi : c.SA.MaxIdleDBConns = 0 <;> simp [serveSA, hfail, hi]
    · rw [main_trace_poolCreated w fl c url hp]
      simp [serveSA, hfail, stepCall, loadedConfig, hr, StartupStep.failMsg]
    · rw [poolSetup_trace]
      by_cases hi : c.SA.MaxIdleDBConns = 0 <;> simp [stepCall, Effect.order, hi]
  | tlsLoad =>
    have h0 := hfirst .readConfig (by decide)
    have h1 := hfirst .setFeatures (by decide)
    have h2 := hfirst .dbURL (by decide)
    have h3 := hfirst .newDbMap (by decide)
    have h4 := hfirst .newSA (by decide)
    simp only [stepError, loadedConfig, overrideAddrs_toDBConfig, overrideAddrs_parallelCap,
      overrideAddrs_TLS, hr, hu] at hfail h0 h1 h2 h3 h4
    subst h0 h2
    have hp : ReachesPoolSetup w fl c url := ⟨hcfg, hr, h1, hu, h3⟩
    refine ⟨?_, ?_, [.readConfigFile fl.configFile, .featuresSet c.SA.Features,
        .statsAndLogging c.Syslog (overrideAddrs fl c).SA.DebugAddr, .logVersion,
        .dbURL c.SA.toDBConfig, .newDbMap url c.SA.MaxDBConns] ++ (poolSetup c.SA).trace ++
        [.newSQLStorageAuthority (parallelCap c.SA)], ?_, ?_⟩
    · simp [Proc.exitCode, main_outcome_poolCreated w fl c url hp, serveSA, hfail, h4]
    · rw [main_trace_poolCreated w fl c url hp, poolSetup_trace]
      by_cases hi : c.SA.MaxIdleDBConns = 0 <;> simp [serveSA, hfail, h4, hi]
    · rw [main_trace_poolCreated w fl c url hp]
      simp [serveSA, hfail, h4, stepCall, loadedConfig, hr, StartupStep.failMsg]
    · rw [poolSetup_trace]
      by_cases hi : c.SA.MaxIdleDBConns = 0 <;> simp [stepCall, Effect.order, hi]
  | newServer =>
    have h0 := hfirst .readConfig (by decide)
    have h1 := hfirst .setFeatures (by decide)
    have h2 := hfirst .dbURL (by decide)
    have h3 := hfirst .newDbMap (by decide)
    have h4 := hfirst .newSA (by decide)
    have h5 := hfirst .tlsLoad (by decide)
    simp only [stepError, loadedConfig, overrideAddrs_toDBConfig, overrideAddrs_parallelCap,
      overrideAddrs_TLS, hr, hu] at hfail h0 h1 h2 h3 h4 h5
    subst h0 h2
    have hp : ReachesPoolSetup w fl c url := ⟨hcfg, hr, h1, hu, h3⟩
    refine ⟨?_, ?_, [.readConfigFile fl.configFile, .featuresSet c.SA.Features,
        .statsAndLogging c.Syslog (overrideAddrs fl c).SA.DebugAddr, .logVersion,
        .dbURL c.SA.toDBConfig, .newDbMap url c.SA.MaxDBConns] ++ (poolSetup c.SA).trace ++
        [.newSQLStorageAuthority (parallelCap c.SA), .tlsLoad c.SA.TLS, .newServerMetrics],
        ?_, ?_⟩
    · simp [Proc.exitCode, main_outcome_poolCreated w fl c url hp, serveSA, hfail, h4, h5]
    · rw [main_trace_poolCreated w fl c url hp, poolSetup_trace]
      by_cases hi : c.SA.MaxIdleDBConns = 0 <;> simp [serveSA, hfail, h4, h5, hi]
    · rw [main_trace_poolCreated w fl c url hp]
      simp [serveSA, hfail, h4, h5, stepCall, loadedConfig, hr, StartupStep.failMsg]
    · rw [poolSetup_trace]
      by_cases hi : c.SA.MaxIdleDBConns = 0 <;> simp [stepCall, Effect.order, hi]



theorem exists_first_failure (w : World) (fl : Flags)
    (h : ∃ s, stepError w fl s ≠ none) :
    ∃ s e, stepError w fl s = some e ∧
      ∀ t, t.rank < s.rank → stepError w fl t = none := by
  rcases h0 : stepError w fl .readConfig with _ | e
  swap
  · exact ⟨.readConfig, e, h0, by
      intro t ht
      cases t <;> simp [StartupStep.rank] at ht⟩
  rcases h1 : stepError w fl .setFeatures with _ | e
  swap
  · exact ⟨.setFeatures, e, h1, by
      intro t ht
      cases t <;> first | assumption | simp [StartupStep.rank] at ht⟩
  rcases h2 : stepError w fl .dbURL with _ | e
  swap
  · exact ⟨.dbURL, e, h2, by
      intro t ht
      cases t <;> first | assumption | simp [StartupStep.rank] at ht⟩
  rcases h3 : stepError w fl .newDbMap with _ | e
  swap
  · exact ⟨.newDbMap, e, h3, by
      intro t ht
      cases t <;> first | assumption | simp [StartupStep.rank] at ht⟩
  rcases h4 : stepError w fl .newSA with _ | e
  swap
  · exact ⟨.newSA, e, h4, by
      intro t ht
      cases t <;> first | assumption | simp [StartupStep.rank] at ht⟩
  rcases h5 : stepError w fl .tlsLoad with _ | e
  swap
  · exact ⟨.tlsLoad, e, h5, by
      intro t ht
      cases t <;> first | assumption | simp [StartupStep.rank] at ht⟩
  rcases h6 : stepError w fl .newServer with _ | e
  swap
  · exact ⟨.newServer, e, h6, by
      intro t ht
      cases t <;> first | assumption | simp [StartupStep.rank] at ht⟩
  obtain ⟨s, hs⟩ := h
  cases s <;> contradiction

theorem startupSucceeds_of_no_failure (w : World) (fl : Flags)
    (hcfg : fl.configFile ≠ "") (h : ∀ s, stepError w fl s = none) :
    StartupSucceeds w fl (w.readConfigFile fl.configFile).1
      (w.dbURL (w.readConfigFile fl.configFile).1.SA.toDBConfig).1 := by
  have h0 := h .readConfig
  have h1 := h .setFeatures
  have h2 := h .dbURL
  have h3 := h .newDbMap
  have h4 := h .newSA
  have h5 := h .tlsLoad
  have h6 := h .newServer
  simp only [stepError, loadedConfig, overrideAddrs_toDBConfig, overrideAddrs_parallelCap,
    overrideAddrs_TLS] at h0 h1 h2 h3 h4 h5 h6
  exact ⟨⟨hcfg, Prod.ext rfl h0, h1, Prod.ext rfl h2, h3⟩, h4, h5, h6⟩

theorem main_trace_success (w : World) (fl : Flags) (c : config) (url : String)
    (h : StartupSucceeds w fl c url) :
    (main w fl).trace =
      [.readConfigFile fl.configFile, .featuresSet c.SA.Features,
        .statsAndLogging c.Syslog (overrideAddrs fl c).SA.DebugAddr, .logVersion,
        .dbURL c.SA.toDBConfig, .newDbMap url c.SA.MaxDBConns,
        .newGauge "max_db_connections", .mustRegister "max_db_connections",
        .gaugeSet "max_db_connections" (float64 c.SA.MaxDBConns)] ++
      (if c.SA.MaxIdleDBConns ≠ 0 then [.setMaxIdleConns c.SA.MaxIdleDBConns] else []) ++
      [.goReportDbConnCount, .newSQLStorageAuthority (parallelCap c.SA), .tlsLoad c.SA.TLS,
        .newServerMetrics, .newServer (overrideAddrs fl c).SA.GRPC,
        .newStorageAuthorityServer, .registerStorageAuthorityServer,
        .goCatchSignals .gracefulStop, .serve] ++
      (match FilterShutdownErrors w.serve with
        | none => [.auditPanic]
        | some e => [.auditErr "SA gRPC service failed" e, .exit 1]) := by
  obtain ⟨hp, h4, h5, h6⟩ := h
  rw [main_trace_poolCreated w fl c url hp, poolSetup_trace]
  cases hs : FilterShutdownErrors w.serve <;>
    simp [serveSA, h4, h5, h6, hs]

theorem main_outcome_success (w : World) (fl : Flags) (c : config) (url : String)
    (h : StartupSucceeds w fl c url) :
    (main w fl).outcome =
      (match FilterShutdownErrors w.serve with
        | none => .returned ()
        | some _ => .exited 1) := by
  obtain ⟨hp, h4, h5, h6⟩ := h
  rw [main_outcome_poolCreated w fl c url hp]
  cases hs : FilterShutdownErrors w.serve <;>
    simp [serveSA, h4, h5, h6, hs]

theorem stepCall_order_le (w : World) (fl : Flags) (s : StartupStep) :
    (stepCall w fl s).order ≤ 15 := by
  cases s <;> simp [stepCall, Effect.order]

theorem main_newServer_arg (w : World) (fl : Flags) (g : GRPCServerConfig)
    (h : Effect.newServer g ∈ (main w fl).trace) : g = (loadedConfig w fl).SA.GRPC := by
  by_cases hcfg : fl.configFile = ""
  · simp [main, hcfg] at h
  by_cases hfail : ∃ s, stepError w fl s ≠ none
  · obtain ⟨s, e, hs, hfirst⟩ := exists_first_failure w fl hfail
    obtain ⟨-, -, pre, htr, hpre⟩ := fail_at_step w fl hcfg s e hs hfirst
    rw [htr] at h
    simp only [List.mem_append, List.mem_cons, List.mem_singleton, List.not_mem_nil,
      or_false, reduceCtorEq] at h
    rcases h with h | h
    · have := hpre _ h
      have := stepCall_order_le w fl s
      simp [Effect.order] at *
      omega
    · cases s <;> simp [stepCall] at h
      exact h
  · have hall : ∀ s, stepError w fl s = none := by
      intro s
      by_contra hne
      exact hfail ⟨s, hne⟩
    have hs := startupSucceeds_of_no_failure w fl hcfg hall
    rw [main_trace_success w fl _ _ hs] at h
    unfold loadedConfig
    cases hf : FilterShutdownErrors w.serve <;>
      by_cases hi : (w.readConfigFile fl.configFile).1.SA.MaxIdleDBConns = 0 <;>
      simp [hf, hi] at h <;> exact h

theorem serveSA_order (w : World) (c : config) :
    ∀ x ∈ (serveSA w c).trace, 12 ≤ x.order := by
  unfold serveSA
  cases h1 : w.newSQLStorageAuthority (parallelCap c.SA) <;>
  cases h2 : w.tlsLoad c.SA.TLS <;>
  cases h3 : w.newServer c.SA.GRPC <;>
  cases h4 : FilterShutdownErrors w.serve <;>
  simp [h1, h2, h3, h4, Effect.order]

theorem main_statsAndLogging_arg (w : World) (fl : Flags) (sys : SyslogConfig) (d : String)
    (h : Effect.statsAndLogging sys d ∈ (main w fl).trace) :
    d = (loadedConfig w fl).SA.DebugAddr := by
  by_cases hcfg : fl.configFile = ""
  · simp [main, hcfg] at h
  rcases hr : w.readConfigFile fl.configFile with ⟨c, err⟩
  rcases hu : w.dbURL c.SA.toDBConfig with ⟨url, uerr⟩
  cases err with
  | some e => simp [main, hcfg, hr] at h
  | none =>
    cases h1 : w.featuresSet c.SA.Features with
    | some e => simp [main, hcfg, hr, h1] at h
    | none =>
      cases uerr with
      | some e =>
        simp [main, hcfg, hr, hu, h1] at h
        simp [loadedConfig, hr, h.2]
      | none =>
        cases h2 : w.newDbMap url c.SA.MaxDBConns with
        | some e =>
          simp [main, hcfg, hr, hu, h1, h2] at h
          simp [loadedConfig, hr, h.2]
        | none =>
          have hp : ReachesPoolSetup w fl c url := ⟨hcfg, hr, h1, hu, h2⟩
          rw [main_trace_poolCreated w fl c url hp, poolSetup_trace] at h
          simp only [List.mem_append, List.mem_cons, List.mem_singleton, List.not_mem_nil,
            or_false, reduceCtorEq, false_or, Effect.statsAndLogging.injEq] at h
          rcases h with ((h | h) | h) | h
          · simp [loadedConfig, hr, h.2]
          · split at h <;> simp at h
          · have := serveSA_order w _ _ h
            simp [Effect.order] at this
          · split at h <;> simp at h


theorem serveSA_registeredGauges (w : World) (c : config) :
    (serveSA w c).trace.filterMap Effect.registeredGauge = [] := by
  unfold serveSA
  cases h1 : w.newSQLStorageAuthority (parallelCap c.SA) <;>
  cases h2 : w.tlsLoad c.SA.TLS <;>
  cases h3 : w.newServer c.SA.GRPC <;>
  cases h4 : FilterShutdownErrors w.serve <;>
  simp [h1, h2, h3, h4, Effect.registeredGauge]

theorem main_registeredGauges (w : World) (fl : Flags) (c : config) (url : String)
    (h : ReachesPoolSetup w fl c url) :
    (main w fl).trace.filterMap Effect.registeredGauge = ["max_db_connections"] := by
  rw [main_trace_poolCreated w fl c url h, poolSetup_trace]
  simp only [List.filterMap_append, serveSA_registeredGauges]
  split <;> split <;> simp [Effect.registeredGauge]

theorem mem_filterMap_parallelArg (l : List Effect) (n : Int) :
    n ∈ l.filterMap Effect.parallelArg ↔ Effect.newSQLStorageAuthority n ∈ l := by
  rw [List.mem_filterMap]
  constructor
  · rintro ⟨x, hx, hn⟩
    cases x <;> simp [Effect.parallelArg] at hn
    subst hn
    exact hx
  · intro hx
    exact ⟨_, hx, rfl⟩

theorem mem_filterMap_idleArg (l : List Effect) (n : Int) :
    n ∈ l.filterMap Effect.idleArg ↔ Effect.setMaxIdleConns n ∈ l := by
  rw [List.mem_filterMap]
  constructor
  · rintro ⟨x, hx, hn⟩
    cases x <;> simp [Effect.idleArg] at hn
    subst hn
    exact hx
  · intro hx
    exact ⟨_, hx, rfl⟩

/-! ## The claims -/

/-- C1: whenever start-up gets as far as the storage-authority constructor and
the configured `ParallelismPerRPC` is zero or negative, `main` calls
`sa.NewSQLStorageAuthority` (start-up is not rejected), exactly once, and the
cap it passes is exactly 1. -/
theorem nonpositive_parallelism_is_clamped_to_one (w : World) (fl : Flags) (c : config)
    (url : String) (h : ReachesPoolSetup w fl c url) (hp : c.SA.ParallelismPerRPC ≤ 0) :
    parallelCap c.SA = 1 ∧
    (main w fl).trace.filterMap Effect.parallelArg = [1] ∧
    Effect.newSQLStorageAuthority 1 ∈ (main w fl).trace ∧
    ∀ n, Effect.newSQLStorageAuthority n ∈ (main w fl).trace → n = 1 := by
  have hc := parallelCap_of_nonpos c.SA hp
  have hargs := main_parallelArgs w fl c url h
  rw [hc] at hargs
  refine ⟨hc, hargs, ?_, ?_⟩
  · rw [← mem_filterMap_parallelArg, hargs]
    simp
  · intro n hn
    rw [← mem_filterMap_parallelArg, hargs] at hn
    simpa using hn

/-- Witness of C1 at `ParallelismPerRPC = -3`. -/
theorem nonpositive_parallelism_is_clamped_to_one_witness :
    ReachesPoolSetup (exampleWorld (exampleConfig (-3) 10 0) none) exampleFlags
      (exampleConfig (-3) 10 0) exampleURL ∧
    (main (exampleWorld (exampleConfig (-3) 10 0) none) exampleFlags).trace.filterMap
      Effect.parallelArg = [1] :=
  ⟨⟨by decide, rfl, rfl, rfl, rfl⟩,
    (nonpositive_parallelism_is_clamped_to_one (exampleWorld (exampleConfig (-3) 10 0) none)
      exampleFlags (exampleConfig (-3) 10 0) exampleURL ⟨by decide, rfl, rfl, rfl, rfl⟩
      (by decide)).2.1⟩

/-- C2: whenever start-up gets as far as the storage-authority constructor and
the configured `ParallelismPerRPC` is `p ≥ 1`, the cap `main` passes to
`sa.NewSQLStorageAuthority` is `p` itself, whatever `MaxDBConns` and
`MaxIdleDBConns` are (they are fields of the arbitrary `c`). -/
theorem positive_parallelism_is_passed_unchanged (w : World) (fl : Flags) (c : config)
    (url : String) (h : ReachesPoolSetup w fl c url) (hp : 1 ≤ c.SA.ParallelismPerRPC) :
    parallelCap c.SA = c.SA.ParallelismPerRPC ∧
    (main w fl).trace.filterMap Effect.parallelArg = [c.SA.ParallelismPerRPC] ∧
    ∀ n, Effect.newSQLStorageAuthority n ∈ (main w fl).trace → n = c.SA.ParallelismPerRPC := by
  have hc := parallelCap_of_pos c.SA hp
  have hargs := main_parallelArgs w fl c url h
  rw [hc] at hargs
  refine ⟨hc, hargs, ?_⟩
  intro n hn
  rw [← mem_filterMap_parallelArg, hargs] at hn
  simpa using hn

/-- Witness of C2 at `ParallelismPerRPC = 50` above `MaxDBConns = 10`. -/
theorem positive_parallelism_is_passed_unchanged_witness :
    ReachesPoolSetup (exampleWorld (exampleConfig 50 10 2) none) exampleFlags
      (exampleConfig 50 10 2) exampleURL ∧
    (main (exampleWorld (exampleConfig 50 10 2) none) exampleFlags).trace.filterMap
      Effect.parallelArg = [50] :=
  ⟨⟨by decide, rfl, rfl, rfl, rfl⟩,
    (positive_parallelism_is_passed_unchanged (exampleWorld (exampleConfig 50 10 2) none)
      exampleFlags (exampleConfig 50 10 2) exampleURL ⟨by decide, rfl, rfl, rfl, rfl⟩
      (by decide)).2.1⟩

/-- C3: whenever start-up reaches the pool set-up, `main` calls
`SetMaxIdleConns` if and only if `MaxIdleDBConns` is not 0, at most once, and
the argument is `MaxIdleDBConns` itself (negative values included); with
`MaxIdleDBConns = 0` the setter is never called. -/
theorem idle_setter_called_iff_nonzero (w : World) (fl : Flags) (c : config)
    (url : String) (h : ReachesPoolSetup w fl c url) :
    (main w fl).trace.filterMap Effect.idleArg =
      (if c.SA.MaxIdleDBConns ≠ 0 then [c.SA.MaxIdleDBConns] else []) ∧
    ((∃ n, Effect.setMaxIdleConns n ∈ (main w fl).trace) ↔ c.SA.MaxIdleDBConns ≠ 0) ∧
    (∀ n, Effect.setMaxIdleConns n ∈ (main w fl).trace → n = c.SA.MaxIdleDBConns) ∧
    (c.SA.MaxIdleDBConns = 0 → ∀ n, Effect.setMaxIdleConns n ∉ (main w fl).trace) := by
  have hargs := main_idleArgs w fl c url h
  refine ⟨hargs, ?_, ?_, ?_⟩
  · constructor
    · rintro ⟨n, hn⟩ h0
      rw [← mem_filterMap_idleArg, hargs] at hn
      simp [h0] at hn
    · intro h0
      refine ⟨c.SA.MaxIdleDBConns, ?_⟩
      rw [← mem_filterMap_idleArg, hargs]
      simp [h0]
  · intro n hn
    rw [← mem_filterMap_idleArg, hargs] at hn
    split at hn <;> simp at hn
    exact hn
  · intro h0 n hn
    rw [← mem_filterMap_idleArg, hargs] at hn
    simp [h0] at hn

/-- Witness of C3 at `MaxIdleDBConns = -2`: the setter is called with -2. -/
theorem idle_setter_called_iff_nonzero_witness :
    ReachesPoolSetup (exampleWorld (exampleConfig 4 10 (-2)) none) exampleFlags
      (exampleConfig 4 10 (-2)) exampleURL ∧
    (main (exampleWorld (exampleConfig 4 10 (-2)) none) exampleFlags).trace.filterMap
      Effect.idleArg = [-2] :=
  ⟨⟨by decide, rfl, rfl, rfl, rfl⟩,
    (idle_setter_called_iff_nonzero (exampleWorld (exampleConfig 4 10 (-2)) none)
      exampleFlags (exampleConfig 4 10 (-2)) exampleURL ⟨by decide, rfl, rfl, rfl, rfl⟩).1⟩

/-- C4: without `--config`, whatever the other flags and the world, `main`
prints the usage and exits with code 1, and these are its only effects: no
configuration is read, no feature flag set, no debug server, database
connection, gRPC server or listener is started. -/
theorem missing_config_flag_exits_first (w : World) (fl : Flags)
    (h : fl.configFile = "") :
    (main w fl).trace = [.usage, .exit 1] ∧ (main w fl).exitCode = 1 := by
  simp [main, h, Proc.exitCode]

/-- Witness of C4 with both address flags given. -/
theorem missing_config_flag_exits_first_witness :
    noConfigFlags.configFile = "" ∧
    (main (exampleWorld (exampleConfig 4 10 2) none) noConfigFlags).trace =
      [.usage, .exit 1] ∧
    (main (exampleWorld (exampleConfig 4 10 2) none) noConfigFlags).exitCode = 1 :=
  ⟨rfl, missing_config_flag_exits_first (exampleWorld (exampleConfig 4 10 2) none)
    noConfigFlags rfl⟩

/-- C5: once start-up has succeeded and the serve loop returns `w.serve`: the
filtered error is nil exactly when `w.serve` is nil or the graceful-stop
sentinel, and then `main` ends with exit code 0; any other error passes the
filter unchanged and `main` ends with exit code 1.  The exit code is 1 if and
only if the serve error is a non-sentinel error. -/
theorem serve_error_decides_exit_code (w : World) (fl : Flags) (c : config)
    (url : String) (h : StartupSucceeds w fl c url) :
    Effect.serve ∈ (main w fl).trace ∧
    (FilterShutdownErrors w.serve = none ↔
      (w.serve = none ∨ w.serve = some .shutdownSentinel)) ∧
    (FilterShutdownErrors w.serve = none → (main w fl).exitCode = 0) ∧
    (∀ e, w.serve = some e → e ≠ .shutdownSentinel →
      FilterShutdownErrors w.serve = some e ∧ (main w fl).exitCode = 1) ∧
    ((main w fl).exitCode = 1 ↔ ∃ e, w.serve = some e ∧ e ≠ .shutdownSentinel) := by
  have htr := main_trace_success w fl c url h
  have hout := main_outcome_success w fl c url h
  refine ⟨?_, ?_, ?_, ?_, ?_⟩
  · rw [htr]
    simp
  · rcases hs : w.serve with _ | e
    · simp [FilterShutdownErrors]
    · cases e <;> simp [FilterShutdownErrors]
  · intro hf
    simp [Proc.exitCode, hout, hf]
  · intro e he hne
    cases e with
    | shutdownSentinel => exact absurd rfl hne
    | other msg => simp [Proc.exitCode, hout, he, FilterShutdownErrors]
  · rcases hs : w.serve with _ | e
    · simp [Proc.exitCode, hout, hs, FilterShutdownErrors]
    · cases e <;> simp [Proc.exitCode, hout, hs, FilterShutdownErrors]

/-- Witness of C5: a listener failure after a successful start-up ends the
process with exit code 1. -/
theorem serve_error_decides_exit_code_witness :
    StartupSucceeds (exampleWorld (exampleConfig 4 10 2) (some (.other "accept failed")))
      exampleFlags (exampleConfig 4 10 2) exampleURL ∧
    (main (exampleWorld (exampleConfig 4 10 2) (some (.other "accept failed")))
      exampleFlags).exitCode = 1 :=
  ⟨⟨⟨by decide, rfl, rfl, rfl, rfl⟩, rfl, rfl, rfl⟩,
    ((serve_error_decides_exit_code
      (exampleWorld (exampleConfig 4 10 2) (some (.other "accept failed")))
      exampleFlags (exampleConfig 4 10 2) exampleURL
      ⟨⟨by decide, rfl, rfl, rfl, rfl⟩, rfl, rfl, rfl⟩).2.2.2.1
      (.other "accept failed") rfl (by decide)).2⟩

/-- C6: in every run of `main` with `--config` given in which some checked
start-up step fails (configuration read, feature flags, DB URL, `sa.NewDbMap`,
storage authority, TLS load, gRPC server), the process exits with code 1 and
`Serve` is never called; the run stops at the first failing step `s`: its
trace is calls that come before `s` in `main`, the call of `s`, the log line of
`cmd.FailOnError` and `os.Exit(1)`, and nothing after.  Read contrapositively,
`Serve` is called only if every checked step succeeded. -/
theorem startup_fails_fast (w : World) (fl : Flags) (hcfg : fl.configFile ≠ "")
    (hfail : ∃ s, stepError w fl s ≠ none) :
    (main w fl).exitCode = 1 ∧ Effect.serve ∉ (main w fl).trace ∧
    ∃ s e before, stepError w fl s = some e ∧
      (∀ t, t.rank < s.rank → stepError w fl t = none) ∧
      (main w fl).trace = before ++ [stepCall w fl s, .auditErr s.failMsg e, .exit 1] ∧
      ∀ x ∈ before, x.order < (stepCall w fl s).order := by
  obtain ⟨s, e, hs, hfirst⟩ := exists_first_failure w fl hfail
  obtain ⟨hexit, hserve, before, htr, hbefore⟩ := fail_at_step w fl hcfg s e hs hfirst
  exact ⟨hexit, hserve, s, e, before, hs, hfirst, htr, hbefore⟩

/-- Witness of C6: the database refuses the connection. -/
theorem startup_fails_fast_witness :
    exampleFlags.configFile ≠ "" ∧
    stepError (dbDownWorld (exampleConfig 4 10 2)) exampleFlags .newDbMap ≠ none ∧
    (main (dbDownWorld (exampleConfig 4 10 2)) exampleFlags).exitCode = 1 ∧
    Effect.serve ∉ (main (dbDownWorld (exampleConfig 4 10 2)) exampleFlags).trace :=
  ⟨by decide, by decide,
    (startup_fails_fast (dbDownWorld (exampleConfig 4 10 2)) exampleFlags (by decide)
      ⟨.newDbMap, by decide⟩).1,
    (startup_fails_fast (dbDownWorld (exampleConfig 4 10 2)) exampleFlags (by decide)
      ⟨.newDbMap, by decide⟩).2.1⟩

/-- C7 as stated fails: with `MaxDBConns = 2 ^ 53 + 1` pool creation succeeds
and the gauge is set to `2 ^ 53`, not to the configured value. -/
theorem gauge_differs_from_large_maxDBConns :
    ReachesPoolSetup (exampleWorld (exampleConfig 0 9007199254740993 0) none) exampleFlags
      (exampleConfig 0 9007199254740993 0) exampleURL ∧
    (exampleConfig 0 9007199254740993 0).SA.MaxDBConns = 9007199254740993 ∧
    (main (exampleWorld (exampleConfig 0 9007199254740993 0) none)
      exampleFlags).trace.filterMap Effect.gaugeSetArg =
      [("max_db_connections", 9007199254740992)] :=
  ⟨⟨by decide, rfl, rfl, rfl, rfl⟩, rfl, by decide⟩

/-- C7 amended: whenever pool creation succeeds, the `max_db_connections` gauge
is registered once and set exactly once in the whole run, to
`float64(MaxDBConns)`, whatever `MaxIdleDBConns` and `ParallelismPerRPC` are;
no clamping is applied, and for `|MaxDBConns| ≤ 2 ^ 53` the value set is
`MaxDBConns` unchanged. -/
theorem gauge_registered_and_set_once (w : World) (fl : Flags) (c : config)
    (url : String) (h : ReachesPoolSetup w fl c url) :
    (main w fl).trace.filterMap Effect.registeredGauge = ["max_db_connections"] ∧
    (main w fl).trace.filterMap Effect.gaugeSetArg =
      [("max_db_connections", float64 c.SA.MaxDBConns)] ∧
    (|c.SA.MaxDBConns| ≤ 2 ^ 53 →
      (main w fl).trace.filterMap Effect.gaugeSetArg =
        [("max_db_connections", c.SA.MaxDBConns)]) := by
  refine ⟨main_registeredGauges w fl c url h, main_gaugeSetArgs w fl c url h, ?_⟩
  intro hb
  rw [main_gaugeSetArgs w fl c url h, float64_exact _ hb]

/-- Witness of C7 amended, the scenario of the specification: with
`ParallelismPerRPC = 0`, `MaxDBConns = 10`, `MaxIdleDBConns = 0` the gauge is
set to 10, the cap is 1 and the idle setter is not called. -/
theorem gauge_registered_and_set_once_witness :
    ReachesPoolSetup (exampleWorld (exampleConfig 0 10 0) none) exampleFlags
      (exampleConfig 0 10 0) exampleURL ∧
    (main (exampleWorld (exampleConfig 0 10 0) none) exampleFlags).trace.filterMap
      Effect.gaugeSetArg = [("max_db_connections", 10)] ∧
    (main (exampleWorld (exampleConfig 0 10 0) none) exampleFlags).trace.filterMap
      Effect.parallelArg = [1] ∧
    (main (exampleWorld (exampleConfig 0 10 0) none) exampleFlags).trace.filterMap
      Effect.idleArg = [] :=
  ⟨⟨by decide, rfl, rfl, rfl, rfl⟩,
    (gauge_registered_and_set_once (exampleWorld (exampleConfig 0 10 0) none) exampleFlags
      (exampleConfig 0 10 0) exampleURL ⟨by decide, rfl, rfl, rfl, rfl⟩).2.2 (by decide),
    by decide, by decide⟩

/-- C8: after the override step the gRPC address is the `--grpc-addr` flag when
that flag is non-empty and the configured address otherwise, and likewise the
debug address with `--debug-addr`; neither flag influences the other address,
and every other field of the configuration is unchanged.  In any run of `main`
on a configuration file holding `c`, `cmd.StatsAndLogging` and `bgrpc.NewServer`
are given the addresses after the override. -/
theorem address_overrides (w : World) (fl : Flags) (c : config)
    (hread : (w.readConfigFile fl.configFile).1 = c) :
    (overrideAddrs fl c).SA.GRPC.Address =
      (if fl.grpcAddr ≠ "" then fl.grpcAddr else c.SA.GRPC.Address) ∧
    (overrideAddrs fl c).SA.DebugAddr =
      (if fl.debugAddr ≠ "" then fl.debugAddr else c.SA.DebugAddr) ∧
    (∀ g, (overrideAddrs { fl with grpcAddr := g } c).SA.DebugAddr =
      (overrideAddrs fl c).SA.DebugAddr) ∧
    (∀ d, (overrideAddrs { fl with debugAddr := d } c).SA.GRPC.Address =
      (overrideAddrs fl c).SA.GRPC.Address) ∧
    ((overrideAddrs fl c).SA.GRPC.settings = c.SA.GRPC.settings ∧
      (overrideAddrs fl c).SA.TLS = c.SA.TLS ∧
      (overrideAddrs fl c).SA.toDBConfig = c.SA.toDBConfig ∧
      (overrideAddrs fl c).SA.Features = c.SA.Features ∧
      (overrideAddrs fl c).SA.ParallelismPerRPC = c.SA.ParallelismPerRPC ∧
      (overrideAddrs fl c).Syslog = c.Syslog) ∧
    (∀ g, Effect.newServer g ∈ (main w fl).trace → g = (overrideAddrs fl c).SA.GRPC) ∧
    (∀ sys d, Effect.statsAndLogging sys d ∈ (main w fl).trace →
      d = (overrideAddrs fl c).SA.DebugAddr) := by
  refine ⟨?_, ?_, ?_, ?_, ?_, ?_, ?_⟩
  · unfold overrideAddrs
    by_cases hg : fl.grpcAddr = "" <;> by_cases hd : fl.debugAddr = "" <;> simp [hg, hd]
  · unfold overrideAddrs
    by_cases hg : fl.grpcAddr = "" <;> by_cases hd : fl.debugAddr = "" <;> simp [hg, hd]
  · intro g
    unfold overrideAddrs
    by_cases hg : fl.grpcAddr = "" <;> by_cases hd : fl.debugAddr = "" <;>
      by_cases hn : g = "" <;> simp [hg, hd, hn]
  · intro d
    unfold overrideAddrs
    by_cases hg : fl.grpcAddr = "" <;> by_cases hd : fl.debugAddr = "" <;>
      by_cases hn : d = "" <;> simp [hg, hd, hn]
  · unfold overrideAddrs
    by_cases hg : fl.grpcAddr = "" <;> by_cases hd : fl.debugAddr = "" <;> simp [hg, hd]
  · intro g hg
    rw [← hread]
    exact main_newServer_arg w fl g hg
  · intro sys d hd
    rw [← hread]
    exact main_statsAndLogging_arg w fl sys d hd

/-- Witness of C8: `--grpc-addr` alone replaces the gRPC address and leaves the
debug address of the file. -/
theorem address_overrides_witness :
    ((exampleWorld (exampleConfig 4 10 2) none).readConfigFile
      grpcOverrideFlags.configFile).1 = exampleConfig 4 10 2 ∧
    (overrideAddrs grpcOverrideFlags (exampleConfig 4 10 2)).SA.GRPC.Address =
      "0.0.0.0:9195" ∧
    (overrideAddrs grpcOverrideFlags (exampleConfig 4 10 2)).SA.DebugAddr = ":8003" :=
  ⟨rfl,
    (address_overrides (exampleWorld (exampleConfig 4 10 2) none) grpcOverrideFlags
      (exampleConfig 4 10 2) rfl).1.trans (by decide),
    (address_overrides (exampleWorld (exampleConfig 4 10 2) none) grpcOverrideFlags
      (exampleConfig 4 10 2) rfl).2.1.trans (by decide)⟩

/-- C10: in every run of `main` in which all checked steps succeed, the trace
is: configuration read, feature flags, logging set-up, DB URL, pool creation,
gauge creation, registration and publication, the idle setter if
`MaxIdleDBConns` is not 0, health reporter start, storage authority with the
clamped cap, TLS load, server metrics, gRPC server and listener, service
registration, signal catcher (with the graceful stop) and `Serve`, followed
only by the effects that end the process.  The steps named in the claim occur
in the claimed order; the idle setter occurs at most once, after
`sa.NewDbMap` and before the health reporter and the storage authority;
`Serve` is the last call, after the signal catcher. -/
theorem startup_sequence (w : World) (fl : Flags) (c : config) (url : String)
    (h : StartupSucceeds w fl c url) :
    (∃ ending, (main w fl).trace =
      [.readConfigFile fl.configFile, .featuresSet c.SA.Features,
        .statsAndLogging c.Syslog (overrideAddrs fl c).SA.DebugAddr, .logVersion,
        .dbURL c.SA.toDBConfig, .newDbMap url c.SA.MaxDBConns,
        .newGauge "max_db_connections", .mustRegister "max_db_connections",
        .gaugeSet "max_db_connections" (float64 c.SA.MaxDBConns)] ++
      (if c.SA.MaxIdleDBConns ≠ 0 then [.setMaxIdleConns c.SA.MaxIdleDBConns] else []) ++
      [.goReportDbConnCount, .newSQLStorageAuthority (parallelCap c.SA), .tlsLoad c.SA.TLS,
        .newServerMetrics, .newServer (overrideAddrs fl c).SA.GRPC,
        .newStorageAuthorityServer, .registerStorageAuthorityServer,
        .goCatchSignals .gracefulStop, .serve] ++ ending ∧
      ∀ x ∈ ending, x.isEnding = true) ∧
    (main w fl).trace.filter Effect.milestone =
      [.readConfigFile fl.configFile, .featuresSet c.SA.Features,
        .newDbMap url c.SA.MaxDBConns,
        .gaugeSet "max_db_connections" (float64 c.SA.MaxDBConns)] ++
      (if c.SA.MaxIdleDBConns ≠ 0 then [.setMaxIdleConns c.SA.MaxIdleDBConns] else []) ++
      [.goReportDbConnCount, .newSQLStorageAuthority (parallelCap c.SA), .tlsLoad c.SA.TLS,
        .newServer (overrideAddrs fl c).SA.GRPC, .registerStorageAuthorityServer,
        .goCatchSignals .gracefulStop, .serve] := by
  have htr := main_trace_success w fl c url h
  constructor
  · refine ⟨_, htr, ?_⟩
    intro x hx
    split at hx <;> simp at hx
    · subst hx
      rfl
    · rcases hx with hx | hx <;> subst hx <;> rfl
  · rw [htr]
    by_cases hi : c.SA.MaxIdleDBConns = 0 <;>
      cases hs : FilterShutdownErrors w.serve <;>
      simp [hi, Effect.milestone, List.filter_cons]

/-- Witness of C10 with an idle limit of 2 and a graceful stop. -/
theorem startup_sequence_witness :
    StartupSucceeds (exampleWorld (exampleConfig 4 10 2) (some .shutdownSentinel))
      exampleFlags (exampleConfig 4 10 2) exampleURL ∧
    (main (exampleWorld (exampleConfig 4 10 2) (some .shutdownSentinel))
      exampleFlags).trace.filter Effect.milestone =
      [.readConfigFile "test/config/sa.json",
        .featuresSet [("AllowAccountDeactivation", true)],
        .newDbMap "mysql+tcp://sa@localhost:3306/boulder_sa" 10,
        .gaugeSet "max_db_connections" 10, .setMaxIdleConns 2, .goReportDbConnCount,
        .newSQLStorageAuthority 4, .tlsLoad { material := "test/grpc-creds/sa.boulder" },
        .newServer { Address := ":9095", settings := "ra.boulder" },
        .registerStorageAuthorityServer, .goCatchSignals .gracefulStop, .serve] :=
  ⟨⟨⟨by decide, rfl, rfl, rfl, rfl⟩, rfl, rfl, rfl⟩,
    (startup_sequence (exampleWorld (exampleConfig 4 10 2) (some .shutdownSentinel))
      exampleFlags (exampleConfig 4 10 2) exampleURL
      ⟨⟨by decide, rfl, rfl, rfl, rfl⟩, rfl, rfl, rfl⟩).2.trans (by decide)⟩

end BoulderSA
